import Mathlib

set_option maxHeartbeats 1000000

namespace CloudSanctionsAudit

/-!
Shallow embedding of the cloud-sanctions-audit frontend
(`frontend/pages/index.js`, `frontend/pages/results.js` and the
`src/unnamed/part_000` variant of the search page), together with
spec-modelled definitions for the backend screening pipeline whose code
(`backend/main.py`) is not part of the source tree.
-/

/-- One element of a per-source match list, with the fields the results page
reads (`type`, `name`, `acronym`, `specification`, `country`, `measures`,
`reference_number`, `listed_on`). -/
structure SourceMatch where
  type : String
  name : String
  acronym : String := ""
  specification : String := ""
  country : String := ""
  measures : List String := []
  reference_number : String := ""
  listed_on : String := ""
deriving DecidableEq

/-- The `evidence_urls` object of the envelope; the results page reads the
`eu_evidence` and `un_evidence` entries through optional chaining. -/
structure EvidenceUrls where
  eu_evidence : Option String := none
  un_evidence : Option String := none
deriving DecidableEq

/-- The result envelope as consumed by `results.js`: `query`, `search_type`,
`risk_score`, `ai_summary`, per-source `found` flags and match lists,
`evidence_urls` and `audit_folder`.  The two `*_unavailable` flags are
modelled from the spec (the envelope "marks this source `found=false` with an
explicit `unavailable` flag"); the frontend never reads them. -/
structure ResultEnvelope where
  query : String
  search_type : String
  risk_score : String
  ai_summary : Option String
  eu_found : Bool
  eu_matches : Option (List SourceMatch)
  un_found : Bool
  un_matches : Option (List SourceMatch)
  evidence_urls : Option EvidenceUrls
  audit_folder : String
  eu_unavailable : Bool := false
  un_unavailable : Bool := false
deriving DecidableEq

/-- JavaScript's `String.prototype.trim()`: strip leading and trailing
whitespace, modelled over the character list. -/
def jsTrim (s : String) : String :=
  String.mk (((s.data.dropWhile Char.isWhitespace).reverse.dropWhile
    Char.isWhitespace).reverse)

/-- JavaScript's `String.prototype.toUpperCase()` (ASCII case mapping),
modelled over the character list. -/
def jsToUpper (s : String) : String :=
  String.mk (s.data.map Char.toUpper)

/-! ## results.js page logic -/

/-- From results.js (`shouldShowPersonSelection`): the person-selection UI is
shown when `!results.eu_found && !results.un_found` and
`results.eu_matches?.filter((m) => m.type === "person_match").length > 1`. -/
def shouldShowPersonSelection (r : ResultEnvelope) : Bool :=
  !r.eu_found && !r.un_found &&
    (match r.eu_matches with
     | some ms => decide (1 < (ms.filter (fun m => m.type == "person_match")).length)
     | none => false)

/-- From results.js (`isHighRisk`): `results.eu_found || results.un_found`. -/
def isHighRisk (r : ResultEnvelope) : Bool :=
  r.eu_found || r.un_found

/-- From results.js: the person-match candidates,
`results.eu_matches.filter((m) => m.type === "person_match")`. -/
def personMatchesOf (r : ResultEnvelope) : List SourceMatch :=
  (r.eu_matches.getD []).filter (fun m => m.type == "person_match")

/-- From results.js (`getRiskLabel`). -/
def getRiskLabel (risk : String) : String :=
  if risk = "" then "SCĂZUT"
  else
    let r := jsToUpper risk
    if r = "CRITICAL" then "CRITIC"
    else if r = "HIGH" then "RIDICAT"
    else if r = "MEDIUM" then "MEDIU"
    else if r = "LOW" then "SCĂZUT"
    else risk

/-- From results.js (`getRiskBadgeClass`). -/
def getRiskBadgeClass (risk : String) : String :=
  if risk = "" then "badge-low"
  else
    let r := jsToUpper risk
    if r = "CRITICAL" || r = "CRITIC" then "badge-critical"
    else if r = "HIGH" || r = "RIDICAT" then "badge-high"
    else if r = "MEDIUM" || r = "MEDIU" then "badge-medium"
    else "badge-low"

/-- From results.js: the displayed narrative
`results.ai_summary || "Nu există analiza disponibilă."` (the fallback text is
used when the field is absent, null, or the empty string). -/
def displayedSummary (s : Option String) : String :=
  match s with
  | some t => if t = "" then "Nu există analiza disponibilă." else t
  | none => "Nu există analiza disponibilă."

/-- What one source card of the final results view shows: the found/not-found
badge and either a capped match list or the "no match" body. -/
structure SourceCard where
  foundBadge : Bool
  shownMatches : Option (List SourceMatch)
deriving DecidableEq

/-- From results.js, EU card: badge from `results.eu_found`; the body lists
`results.eu_matches.slice(0, 5)` when
`results.eu_found && results.eu_matches?.length > 0`, else the no-match text. -/
def euCard (r : ResultEnvelope) : SourceCard :=
  { foundBadge := r.eu_found,
    shownMatches :=
      match r.eu_matches with
      | some ms => if r.eu_found && decide (0 < ms.length) then some (ms.take 5) else none
      | none => none }

/-- From results.js, UN card: same shape over `un_found` / `un_matches`. -/
def unCard (r : ResultEnvelope) : SourceCard :=
  { foundBadge := r.un_found,
    shownMatches :=
      match r.un_matches with
      | some ms => if r.un_found && decide (0 < ms.length) then some (ms.take 5) else none
      | none => none }

/-- From results.js: an evidence link is rendered only when the corresponding
`evidence_urls` entry is present and truthy. -/
def shownEvidence (u : Option EvidenceUrls) (pick : EvidenceUrls → Option String) :
    Option String :=
  match u with
  | some urls =>
    match pick urls with
    | some url => if url = "" then none else some url
    | none => none
  | none => none

/-- The final (non-disambiguation) results view of results.js. -/
structure FinalView where
  riskBadgeClass : String
  riskLabel : String
  highRiskBanner : Bool
  summaryText : String
  euCard : SourceCard
  unCard : SourceCard
  euEvidence : Option String
  unEvidence : Option String
  storagePath : Option String
deriving DecidableEq

/-- From results.js: everything the final results view renders from the
envelope. -/
def finalViewOf (r : ResultEnvelope) : FinalView :=
  { riskBadgeClass := getRiskBadgeClass r.risk_score
    riskLabel := getRiskLabel r.risk_score
    highRiskBanner := isHighRisk r
    summaryText := displayedSummary r.ai_summary
    euCard := euCard r
    unCard := unCard r
    euEvidence := shownEvidence r.evidence_urls (fun u => u.eu_evidence)
    unEvidence := shownEvidence r.evidence_urls (fun u => u.un_evidence)
    storagePath := if r.audit_folder = "" then none else some (r.audit_folder ++ "/") }

/-- The page rendered by results.js for a loaded envelope: either the
person-selection (disambiguation) view or the final results view. -/
inductive PageView where
  | personSelection (query : String) (candidates : List SourceMatch)
  | finalResults (view : FinalView)
deriving DecidableEq

/-- From results.js: the top-level branch of the component — the
person-selection UI when `shouldShowPersonSelection`, otherwise the final
results view. -/
def renderResultsPage (r : ResultEnvelope) : PageView :=
  if shouldShowPersonSelection r then
    .personSelection r.query (personMatchesOf r)
  else
    .finalResults (finalViewOf r)

/-! ## Search submission (index.js and the part_000 variant) -/

/-- The JSON body of a `POST /search` request. -/
structure SearchBody where
  name : String
  search_type : String
deriving DecidableEq

/-- Observable effect of one `handleSubmit` run up to the fetch: the
validation error shown (if any) and the list of `/search` requests issued. -/
structure SubmitEffects where
  errorMessage : Option String
  requests : List SearchBody
deriving DecidableEq

/-- From frontend/pages/index.js `handleSubmit`: `if (!name.trim())` set the
error and return; otherwise fetch `/search` once with
`{ name: name.trim(), search_type: searchType }`. -/
def handleSubmitIndex (name searchType : String) : SubmitEffects :=
  if jsTrim name = "" then
    { errorMessage := some "Introduceti un nume sau o entitate pentru cautare",
      requests := [] }
  else
    { errorMessage := none,
      requests := [{ name := jsTrim name, search_type := searchType }] }

/-- From src/unnamed/part_000 `handleSubmit`: same guard, but the body is
`{ name: name.trim().toUpperCase(), search_type: searchType }`. -/
def handleSubmitPart000 (name searchType : String) : SubmitEffects :=
  if jsTrim name = "" then
    { errorMessage := some "Introduceți un nume sau o companie pentru căutare",
      requests := [] }
  else
    { errorMessage := none,
      requests := [{ name := jsToUpper (jsTrim name), search_type := searchType }] }

/-- Outcome of the follow-up fetch in `handleConfirmSearch`. -/
inductive FetchOutcome where
  | ok (data : ResultEnvelope)
  | httpError
deriving DecidableEq

/-- Observable effect of one `handleConfirmSearch` run: requests issued, the
new stored/displayed envelope (`none` = unchanged), and whether the error
alert fired. -/
structure ConfirmEffects where
  requests : List SearchBody
  storedResults : Option ResultEnvelope
  alerted : Bool
deriving DecidableEq

/-- From results.js `handleConfirmSearch`: `if (!selectedPerson) return;`
otherwise fetch `/search` once with
`{ name: selectedPerson.name, search_type: results.search_type }`; on an ok
response, `sessionStorage.setItem("searchResults", JSON.stringify(data))` and
`setResults(data)`; on failure, alert and leave the stored results unchanged. -/
def handleConfirmSearch (selectedPerson : Option SourceMatch)
    (results : ResultEnvelope) (response : FetchOutcome) : ConfirmEffects :=
  match selectedPerson with
  | none => { requests := [], storedResults := none, alerted := false }
  | some p =>
    match response with
    | .ok data =>
      { requests := [{ name := p.name, search_type := results.search_type }],
        storedResults := some data, alerted := false }
    | .httpError =>
      { requests := [{ name := p.name, search_type := results.search_type }],
        storedResults := none, alerted := true }

/-! ## Spec-modelled backend pieces (backend/main.py is not under src/) -/

/-- The four-level risk tier of the spec's Risk Analyzer. -/
inductive RiskTier where
  | LOW
  | MEDIUM
  | HIGH
  | CRITICAL
deriving DecidableEq

/-- Numeric rank of a tier, for "at least HIGH" statements. -/
def RiskTier.rank : RiskTier → Nat
  | .LOW => 0
  | .MEDIUM => 1
  | .HIGH => 2
  | .CRITICAL => 3

/-- The string form of a tier carried in `risk_score`. -/
def RiskTier.label : RiskTier → String
  | .LOW => "LOW"
  | .MEDIUM => "MEDIUM"
  | .HIGH => "HIGH"
  | .CRITICAL => "CRITICAL"

/-- Modelled from the spec: the Risk Analyzer's tier rule (backend/main.py is
not under src/): CRITICAL when both sources report found, at least HIGH when
either does, MEDIUM/LOW from secondary heuristics only when neither found. -/
def assess (euFound unFound secondaryHeuristic : Bool) : RiskTier :=
  if euFound && unFound then .CRITICAL
  else if euFound || unFound then .HIGH
  else if secondaryHeuristic then .MEDIUM
  else .LOW

/-- Modelled from the spec: the deterministic template narrative used when the
external summarization capability is absent or fails (never empty). -/
def fallbackNarrative (euFound unFound : Bool) : String :=
  if euFound || unFound then
    "Potriviri gasite in sursele de sanctiuni consultate; risc ridicat."
  else
    "Nicio potrivire in sursele de sanctiuni consultate."

/-- Modelled from the spec: narrative selection — prefer the external
summarization output, fall back to the deterministic template when it is
absent or empty. -/
def mkNarrative (summarizer : Option String) (euFound unFound : Bool) : String :=
  match summarizer with
  | some s => if s = "" then fallbackNarrative euFound unFound else s
  | none => fallbackNarrative euFound unFound

/-- A per-source match set as returned to the caller. -/
structure MatchSet where
  returned : List SourceMatch
  found : Bool
deriving DecidableEq

/-- Modelled from the spec: a source's MatchSet — `found = (count > 0)` over
the full match list, while at most the first 5 matches (source order) are
returned to the caller. -/
def mkMatchSet (all : List SourceMatch) : MatchSet :=
  { returned := all.take 5, found := decide (0 < all.length) }

/-- Modelled from the spec: the Search Orchestrator's merge step
(backend/main.py is not under src/).  A `none` source outcome means that
source was unavailable or timed out: it is marked `found=false` with its
`unavailable` flag set, rather than failing the search. -/
def orchestrate (query searchType : String)
    (euSource unSource : Option (List SourceMatch))
    (summarizer : Option String) (secondaryHeuristic : Bool)
    (urls : Option EvidenceUrls) (folder : String) : ResultEnvelope :=
  let euSet := mkMatchSet (euSource.getD [])
  let unSet := mkMatchSet (unSource.getD [])
  let euFound := euSource.isSome && euSet.found
  let unFound := unSource.isSome && unSet.found
  { query := query
    search_type := searchType
    risk_score := (assess euFound unFound secondaryHeuristic).label
    ai_summary := some (mkNarrative summarizer euFound unFound)
    eu_found := euFound
    eu_matches := some euSet.returned
    un_found := unFound
    un_matches := some unSet.returned
    evidence_urls := urls
    audit_folder := folder
    eu_unavailable := euSource.isNone
    un_unavailable := unSource.isNone }

/-- Modelled from the spec: the backend echoes the received request name back
as the envelope's `query`, which the results page displays. -/
def echoedQuery (b : SearchBody) : String := b.name

/-! ## A model of the JSON value space and of `JSON.stringify` / `JSON.parse`

The two pages communicate exclusively through
`sessionStorage.setItem("searchResults", JSON.stringify(data))` on the search
page and `JSON.parse(sessionStorage.getItem("searchResults"))` on the results
page.  `Json` models the JavaScript value space of an envelope; `renderJson`
models `JSON.stringify` and `parseJsonTop` models `JSON.parse` (with integer
numerals; fractional numbers do not occur in envelopes). -/
inductive Json where
  | null : Json
  | bool (b : Bool) : Json
  | num (n : Int) : Json
  | str (s : List Char) : Json
  | arr (elems : List Json) : Json
  | obj (fields : List (List Char × Json)) : Json

/-- The decimal digit character for `d < 10`. -/
def digitChar (d : Nat) : Char := Char.ofNat (48 + d)

/-- Lower-case hexadecimal digit character for `d < 16`. -/
def hexDigitChar (d : Nat) : Char :=
  if d < 10 then Char.ofNat (48 + d) else Char.ofNat (87 + d)

/-- The `\u00XX` escape of a control character's code point `k < 32`. -/
def controlEscape (k : Nat) : List Char :=
  '\\' :: 'u' :: '0' :: '0' :: hexDigitChar (k / 16) :: [hexDigitChar (k % 16)]

/-- JSON string escaping of one character, as produced by `JSON.stringify`:
quote and backslash escaped, the named control escapes, `\u00XX` for the
remaining control characters, and every other character verbatim. -/
def escapeChar (c : Char) : List Char :=
  if c = '"' then ['\\', '"']
  else if c = '\\' then ['\\', '\\']
  else if c = '\n' then ['\\', 'n']
  else if c = '\t' then ['\\', 't']
  else if c = '\r' then ['\\', 'r']
  else if c = '\x08' then ['\\', 'b']
  else if c = '\x0c' then ['\\', 'f']
  else if c.toNat < 32 then controlEscape c.toNat
  else [c]

/-- Escape a whole string body (without the surrounding quotes). -/
def escapeList : List Char → List Char
  | [] => []
  | c :: cs => escapeChar c ++ escapeList cs

/-- Decimal rendering of a natural number (most significant digit first). -/
def renderNat (n : Nat) : List Char :=
  if n = 0 then ['0'] else ((Nat.digits 10 n).reverse.map digitChar)

/-- Decimal rendering of an integer. -/
def renderInt : Int → List Char
  | .ofNat m => renderNat m
  | .negSucc m => '-' :: renderNat (m + 1)

mutual

/-- Model of `JSON.stringify` on a JSON value (no added whitespace, which is
what the no-indent `JSON.stringify(data)` calls of both pages produce). -/
def renderJson : Json → List Char
  | .null => "null".data
  | .bool true => "true".data
  | .bool false => "false".data
  | .num n => renderInt n
  | .str s => '"' :: (escapeList s ++ ['"'])
  | .arr es => '[' :: (renderElems es ++ [']'])
  | .obj fs => '\x7b' :: (renderFields fs ++ ['\x7d'])

/-- Comma-separated rendering of array elements. -/
def renderElems : List Json → List Char
  | [] => []
  | [j] => renderJson j
  | j :: rest => renderJson j ++ ',' :: renderElems rest

/-- Comma-separated rendering of object members. -/
def renderFields : List (List Char × Json) → List Char
  | [] => []
  | [(k, v)] => '"' :: (escapeList k ++ ['"']) ++ ':' :: renderJson v
  | (k, v) :: rest =>
    '"' :: (escapeList k ++ ['"']) ++ ':' :: renderJson v ++ ',' :: renderFields rest

end

/-- JSON insignificant whitespace. -/
def isWs (c : Char) : Bool :=
  c = ' ' || c = '\t' || c = '\n' || c = '\r'

/-- Value of one hexadecimal digit character. -/
def hexVal (c : Char) : Option Nat :=
  if 48 ≤ c.toNat ∧ c.toNat ≤ 57 then some (c.toNat - 48)
  else if 97 ≤ c.toNat ∧ c.toNat ≤ 102 then some (c.toNat - 87)
  else if 65 ≤ c.toNat ∧ c.toNat ≤ 70 then some (c.toNat - 55)
  else none

/-- Parse the body of a JSON string after the opening quote, returning the
decoded characters and the input after the closing quote. -/
def parseStringRest : List Char → Option (List Char × List Char)
  | [] => none
  | c :: cs =>
    if c = '"' then some ([], cs)
    else if c = '\\' then
      match cs with
      | [] => none
      | e :: cs2 =>
        if e = '"' then (parseStringRest cs2).map (fun p => ('"' :: p.1, p.2))
        else if e = '\\' then (parseStringRest cs2).map (fun p => ('\\' :: p.1, p.2))
        else if e = '/' then (parseStringRest cs2).map (fun p => ('/' :: p.1, p.2))
        else if e = 'n' then (parseStringRest cs2).map (fun p => ('\n' :: p.1, p.2))
        else if e = 't' then (parseStringRest cs2).map (fun p => ('\t' :: p.1, p.2))
        else if e = 'r' then (parseStringRest cs2).map (fun p => ('\r' :: p.1, p.2))
        else if e = 'b' then (parseStringRest cs2).map (fun p => ('\x08' :: p.1, p.2))
        else if e = 'f' then (parseStringRest cs2).map (fun p => ('\x0c' :: p.1, p.2))
        else if e = 'u' then
          match cs2 with
          | h1 :: h2 :: h3 :: h4 :: cs3 =>
            match hexVal h1, hexVal h2, hexVal h3, hexVal h4 with
            | some a, some b, some c2, some d =>
              (parseStringRest cs3).map
                (fun p => (Char.ofNat (((a * 16 + b) * 16 + c2) * 16 + d) :: p.1, p.2))
            | _, _, _, _ => none
          | _ => none
        else none
    else if c.toNat < 32 then none
    else (parseStringRest cs).map (fun p => (c :: p.1, p.2))

/-- Consume a run of decimal digits, accumulating their value. -/
def parseDigitsAcc : List Char → Nat → Nat × List Char
  | [], acc => (acc, [])
  | c :: cs, acc =>
    if c.isDigit then parseDigitsAcc cs (acc * 10 + (c.toNat - 48)) else (acc, c :: cs)

/-- Parse an (integer) JSON numeral. -/
def parseNumTok : List Char → Option (Int × List Char)
  | [] => none
  | c :: cs =>
    if c = '-' then
      match cs with
      | [] => none
      | c2 :: cs2 =>
        if c2.isDigit then
          let p := parseDigitsAcc (c2 :: cs2) 0
          some (-(p.1 : Int), p.2)
        else none
    else if c.isDigit then
      let p := parseDigitsAcc (c :: cs) 0
      some ((p.1 : Int), p.2)
    else none

/-- What one recursive-descent step is asked to parse: one JSON value, the
elements of a non-empty array up to `]`, or the members of a non-empty object
up to the closing brace. -/
inductive ParseGoal where
  | val
  | elems
  | fields
deriving DecidableEq

/-- The result of one recursive-descent step, matching its `ParseGoal`. -/
inductive ParseOut where
  | val (j : Json)
  | elems (es : List Json)
  | fields (fs : List (List Char × Json))

/-- Fuel-bounded recursive-descent parser for JSON, over all three goals. -/
def parseF : Nat → ParseGoal → List Char → Option (ParseOut × List Char)
  | 0, _, _ => none
  | _ + 1, .val, [] => none
  | fuel + 1, .val, c :: cs =>
    if c = 'n' then
      match cs with
      | 'u' :: 'l' :: 'l' :: rest => some (.val .null, rest)
      | _ => none
    else if c = 't' then
      match cs with
      | 'r' :: 'u' :: 'e' :: rest => some (.val (.bool true), rest)
      | _ => none
    else if c = 'f' then
      match cs with
      | 'a' :: 'l' :: 's' :: 'e' :: rest => some (.val (.bool false), rest)
      | _ => none
    else if c = '"' then
      (parseStringRest cs).map (fun p => (.val (.str p.1), p.2))
    else if c = '[' then
      match cs with
      | [] => none
      | c2 :: cs2 =>
        if c2 = ']' then some (.val (.arr []), cs2)
        else
          match parseF fuel .elems (c2 :: cs2) with
          | some (.elems es, rest) => some (.val (.arr es), rest)
          | _ => none
    else if c = '\x7b' then
      match cs with
      | [] => none
      | c2 :: cs2 =>
        if c2 = '\x7d' then some (.val (.obj []), cs2)
        else
          match parseF fuel .fields (c2 :: cs2) with
          | some (.fields fs, rest) => some (.val (.obj fs), rest)
          | _ => none
    else (parseNumTok (c :: cs)).map (fun p => (.val (.num p.1), p.2))
  | fuel + 1, .elems, input =>
    match parseF fuel .val input with
    | some (.val j, rest) =>
      (match rest with
       | [] => none
       | c :: cs =>
         if c = ',' then
           match parseF fuel .elems cs with
           | some (.elems es, rest2) => some (.elems (j :: es), rest2)
           | _ => none
         else if c = ']' then some (.elems [j], cs)
         else none)
    | _ => none
  | fuel + 1, .fields, input =>
    match input with
    | [] => none
    | c :: cs =>
      if c = '"' then
        match parseStringRest cs with
        | none => none
        | some (k, rest) =>
          match rest with
          | [] => none
          | c2 :: cs2 =>
            if c2 = ':' then
              match parseF fuel .val cs2 with
              | some (.val v, rest2) =>
                (match rest2 with
                 | [] => none
                 | c3 :: cs3 =>
                   if c3 = ',' then
                     match parseF fuel .fields cs3 with
                     | some (.fields fs, rest3) => some (.fields ((k, v) :: fs), rest3)
                     | _ => none
                   else if c3 = '\x7d' then some (.fields [(k, v)], cs3)
                   else none)
              | _ => none
            else none
      else none

/-- Fuel-bounded parse of one JSON value. -/
def parseJsonF (fuel : Nat) (cs : List Char) : Option (Json × List Char) :=
  match parseF fuel .val cs with
  | some (.val j, rest) => some (j, rest)
  | _ => none

/-- Model of `JSON.parse` on a whole string: skip surrounding whitespace, parse
one value, and require that nothing but whitespace remains. -/
def parseJsonTop (s : String) : Option Json :=
  let cs := s.data.dropWhile (fun c => isWs c)
  match parseJsonF (cs.length + 1) cs with
  | some (j, rest) => if rest.dropWhile (fun c => isWs c) = [] then some j else none
  | none => none

/-! ## Roundtrip: `parseJsonTop` recovers every value `renderJson` produces -/

mutual

/-- Structural size of a JSON value, used as a fuel bound for the parser. -/
def jsize : Json → Nat
  | .null => 1
  | .bool _ => 1
  | .num _ => 1
  | .str _ => 1
  | .arr es => 1 + lsize es
  | .obj fs => 1 + fsize fs

/-- Size of an array's element list. -/
def lsize : List Json → Nat
  | [] => 0
  | j :: rest => 1 + jsize j + lsize rest

/-- Size of an object's member list. -/
def fsize : List (List Char × Json) → Nat
  | [] => 0
  | (_, v) :: rest => 1 + jsize v + fsize rest

end

theorem jsize_pos (j : Json) : 1 ≤ jsize j := by
  cases j <;> simp [jsize]

/-- The next input character is not a decimal digit (so a numeral parse cannot
run past its rendering into the following context). -/
def noDigitHead : List Char → Bool
  | [] => true
  | c :: _ => !c.isDigit

theorem digitChar_props (d : Nat) (hd : d < 10) :
    (digitChar d).isDigit = true ∧ (digitChar d).toNat = 48 + d ∧
      digitChar d ≠ '-' ∧ digitChar d ≠ 'n' ∧ digitChar d ≠ 't' ∧
      digitChar d ≠ 'f' ∧ digitChar d ≠ '"' ∧ digitChar d ≠ '[' ∧
      digitChar d ≠ '\x7b' ∧ digitChar d ≠ ']' ∧ isWs (digitChar d) = false := by
  interval_cases d <;> decide

theorem parseDigitsAcc_spec (bs : List Nat) (rest : List Char) (acc : Nat)
    (hb : ∀ b ∈ bs, b < 10) (hr : noDigitHead rest = true) :
    parseDigitsAcc (bs.map digitChar ++ rest) acc =
      (bs.foldl (fun a b => a * 10 + b) acc, rest) := by
  induction bs generalizing acc with
  | nil =>
    cases rest with
    | nil => rfl
    | cons c cs =>
      simp only [noDigitHead, Bool.not_eq_true'] at hr
      simp [parseDigitsAcc, hr]
  | cons b bs ih =>
    have hb0 : b < 10 := hb b (by simp)
    obtain ⟨hdig, htn, -⟩ := digitChar_props b hb0
    simp only [List.map_cons, List.cons_append, parseDigitsAcc, hdig, if_true, htn,
      List.foldl_cons]
    have : 48 + b - 48 = b := by omega
    rw [this]
    exact ih (acc * 10 + b) (fun x hx => hb x (List.mem_cons_of_mem _ hx))

theorem foldl_reverse_ofDigits (ds : List Nat) (acc : Nat) :
    List.foldl (fun a b => a * 10 + b) acc ds.reverse =
      acc * 10 ^ ds.length + Nat.ofDigits 10 ds := by
  induction ds generalizing acc with
  | nil => simp [Nat.ofDigits]
  | cons d ds ih =>
    simp only [List.reverse_cons, List.foldl_append, List.foldl_cons, List.foldl_nil,
      Nat.ofDigits_cons, List.length_cons, ih]
    ring

theorem parseDigitsAcc_renderNat (n : Nat) (rest : List Char)
    (hr : noDigitHead rest = true) :
    parseDigitsAcc (renderNat n ++ rest) 0 = (n, rest) := by
  by_cases h0 : n = 0
  · subst h0
    have : renderNat 0 = List.map digitChar [0] := by decide
    rw [this, parseDigitsAcc_spec [0] rest 0 (by simp) hr]
    rfl
  · have hne : Nat.digits 10 n ≠ [] := Nat.digits_ne_nil_iff_ne_zero.mpr h0
    have hren : renderNat n = ((Nat.digits 10 n).reverse.map digitChar) := by
      simp [renderNat, h0]
    rw [hren,
      parseDigitsAcc_spec (Nat.digits 10 n).reverse rest 0
        (fun b hb => Nat.digits_lt_base (by norm_num) (List.mem_reverse.mp hb)) hr,
      foldl_reverse_ofDigits, Nat.ofDigits_digits]
    simp

theorem renderNat_head (m : Nat) :
    ∃ c cs, renderNat m = c :: cs ∧ c.isDigit = true ∧ c ≠ '-' ∧ c ≠ 'n' ∧
      c ≠ 't' ∧ c ≠ 'f' ∧ c ≠ '"' ∧ c ≠ '[' ∧ c ≠ '\x7b' ∧ c ≠ ']' ∧
      isWs c = false := by
  by_cases h0 : m = 0
  · subst h0
    exact ⟨'0', [], by decide⟩
  · have hne : Nat.digits 10 m ≠ [] := Nat.digits_ne_nil_iff_ne_zero.mpr h0
    have hrne : (Nat.digits 10 m).reverse ≠ [] := by simpa using hne
    obtain ⟨b, bs, hbs⟩ := List.exists_cons_of_ne_nil hrne
    have hmem : b ∈ (Nat.digits 10 m).reverse := by
      rw [hbs]; exact List.mem_cons_self b bs
    have hb : b < 10 := Nat.digits_lt_base (by norm_num) (List.mem_reverse.mp hmem)
    obtain ⟨h1, -, h3, h4, h5, h6, h7, h8, h9, h10, h11⟩ := digitChar_props b hb
    refine ⟨digitChar b, bs.map digitChar, ?_, h1, h3, h4, h5, h6, h7, h8, h9, h10, h11⟩
    simp [renderNat, h0, hbs]

theorem parseNumTok_renderInt (i : Int) (rest : List Char)
    (hr : noDigitHead rest = true) :
    parseNumTok (renderInt i ++ rest) = some (i, rest) := by
  cases i with
  | ofNat m =>
    obtain ⟨c, cs, hren, hdig, hdash, -⟩ := renderNat_head m
    have : renderInt (Int.ofNat m) ++ rest = c :: (cs ++ rest) := by
      simp [renderInt, hren]
    rw [this]
    simp only [parseNumTok, hdash, if_false, hdig, if_true]
    have hcons : c :: (cs ++ rest) = renderNat m ++ rest := by simp [hren]
    rw [hcons, parseDigitsAcc_renderNat m rest hr]
    rfl
  | negSucc m =>
    obtain ⟨c, cs, hren, hdig, hdash, -⟩ := renderNat_head (m + 1)
    have : renderInt (Int.negSucc m) ++ rest = '-' :: (c :: (cs ++ rest)) := by
      simp [renderInt, hren]
    rw [this]
    simp only [parseNumTok, if_true, hdig]
    have hcons : c :: (cs ++ rest) = renderNat (m + 1) ++ rest := by simp [hren]
    rw [hcons, parseDigitsAcc_renderNat (m + 1) rest hr]
    simp [Int.negSucc_eq]

theorem hexVal_hexDigitChar (k : Nat) (hk : k < 16) :
    hexVal (hexDigitChar k) = some k := by
  interval_cases k <;> decide

theorem hexVal_zero_char : hexVal '0' = some 0 := by decide

theorem parseStringRest_escape (s rest : List Char) :
    parseStringRest (escapeList s ++ '"' :: rest) = some (s, rest) := by
  induction s with
  | nil =>
    simp only [escapeList, List.nil_append]
    rw [parseStringRest.eq_def]
    simp
  | cons c s ih =>
    have hsplit : escapeList (c :: s) ++ '"' :: rest
        = escapeChar c ++ (escapeList s ++ '"' :: rest) := by
      simp [escapeList]
    rw [hsplit]
    by_cases h1 : c = '"'
    · subst h1; rw [parseStringRest.eq_def]; simp [escapeChar, ih]
    by_cases h2 : c = '\\'
    · subst h2; rw [parseStringRest.eq_def]; simp [escapeChar, ih]
    by_cases h3 : c = '\n'
    · subst h3; rw [parseStringRest.eq_def]; simp [escapeChar, ih]
    by_cases h4 : c = '\t'
    · subst h4; rw [parseStringRest.eq_def]; simp [escapeChar, ih]
    by_cases h5 : c = '\r'
    · subst h5; rw [parseStringRest.eq_def]; simp [escapeChar, ih]
    by_cases h6 : c = '\x08'
    · subst h6; rw [parseStringRest.eq_def]; simp [escapeChar, ih]
    by_cases h7 : c = '\x0c'
    · subst h7; rw [parseStringRest.eq_def]; simp [escapeChar, ih]
    by_cases h8 : c.toNat < 32
    · have hesc : escapeChar c
          = ['\\', 'u', '0', '0', hexDigitChar (c.toNat / 16), hexDigitChar (c.toNat % 16)] := by
        simp [escapeChar, controlEscape, h1, h2, h3, h4, h5, h6, h7, h8]
      have hd1 : hexVal (hexDigitChar (c.toNat / 16)) = some (c.toNat / 16) :=
        hexVal_hexDigitChar _ (by omega)
      have hd2 : hexVal (hexDigitChar (c.toNat % 16)) = some (c.toNat % 16) :=
        hexVal_hexDigitChar _ (by omega)
      have hdm : c.toNat / 16 * 16 + c.toNat % 16 = c.toNat := by omega
      rw [hesc, parseStringRest.eq_def]
      simp [hd1, hd2, hexVal_zero_char, ih, hdm, Char.ofNat_toNat]
    · have hesc : escapeChar c = [c] := by
        simp [escapeChar, h1, h2, h3, h4, h5, h6, h7, h8]
      rw [hesc, parseStringRest.eq_def]
      simp [h1, h2, h8, ih]

theorem renderInt_head (i : Int) :
    ∃ c cs, renderInt i = c :: cs ∧ c ≠ 'n' ∧ c ≠ 't' ∧ c ≠ 'f' ∧ c ≠ '"' ∧
      c ≠ '[' ∧ c ≠ '\x7b' ∧ c ≠ ']' ∧ isWs c = false := by
  cases i with
  | ofNat m =>
    obtain ⟨c, cs, hren, -, -, hn, ht, hf, hq, hlb, hob, hrb, hws⟩ := renderNat_head m
    exact ⟨c, cs, by simp [renderInt, hren], hn, ht, hf, hq, hlb, hob, hrb, hws⟩
  | negSucc m =>
    refine ⟨'-', renderNat (m + 1), by simp [renderInt], ?_⟩
    decide

theorem renderJson_head (j : Json) :
    ∃ c cs, renderJson j = c :: cs ∧ isWs c = false ∧ c ≠ ']' := by
  cases j with
  | null => exact ⟨'n', "ull".data, by decide⟩
  | bool b =>
    cases b
    · exact ⟨'f', "alse".data, by decide⟩
    · exact ⟨'t', "rue".data, by decide⟩
  | num n =>
    obtain ⟨c, cs, hren, -, -, -, -, -, -, hrb, hws⟩ := renderInt_head n
    exact ⟨c, cs, by simp [renderJson, hren], hws, hrb⟩
  | str s => exact ⟨'"', _, rfl, by decide, by decide⟩
  | arr es => exact ⟨'[', _, rfl, by decide, by decide⟩
  | obj fs => exact ⟨'\x7b', _, rfl, by decide, by decide⟩

theorem renderElems_cons (j : Json) (es : List Json) :
    ∃ t, renderElems (j :: es) = renderJson j ++ t := by
  cases es with
  | nil => exact ⟨[], by simp [renderElems]⟩
  | cons e es => exact ⟨',' :: renderElems (e :: es), by simp [renderElems]⟩

theorem renderFields_cons (k : List Char) (v : Json)
    (fs : List (List Char × Json)) :
    ∃ t, renderFields ((k, v) :: fs) = '"' :: t := by
  cases fs with
  | nil => exact ⟨escapeList k ++ ['"'] ++ ':' :: renderJson v, by simp [renderFields]⟩
  | cons kv fs =>
    exact ⟨escapeList k ++ ['"'] ++ ':' :: renderJson v ++ ',' :: renderFields (kv :: fs),
      by simp [renderFields]⟩

theorem parseF_val_step (f : Nat) (c : Char) (cs : List Char) :
    parseF (f + 1) .val (c :: cs) =
      (if c = 'n' then
        match cs with
        | 'u' :: 'l' :: 'l' :: rest => some (.val .null, rest)
        | _ => none
      else if c = 't' then
        match cs with
        | 'r' :: 'u' :: 'e' :: rest => some (.val (.bool true), rest)
        | _ => none
      else if c = 'f' then
        match cs with
        | 'a' :: 'l' :: 's' :: 'e' :: rest => some (.val (.bool false), rest)
        | _ => none
      else if c = '"' then
        (parseStringRest cs).map (fun p => (.val (.str p.1), p.2))
      else if c = '[' then
        match cs with
        | [] => none
        | c2 :: cs2 =>
          if c2 = ']' then some (.val (.arr []), cs2)
          else
            match parseF f .elems (c2 :: cs2) with
            | some (.elems es, rest) => some (.val (.arr es), rest)
            | _ => none
      else if c = '\x7b' then
        match cs with
        | [] => none
        | c2 :: cs2 =>
          if c2 = '\x7d' then some (.val (.obj []), cs2)
          else
            match parseF f .fields (c2 :: cs2) with
            | some (.fields fs, rest) => some (.val (.obj fs), rest)
            | _ => none
      else (parseNumTok (c :: cs)).map (fun p => (.val (.num p.1), p.2))) := rfl

theorem parseF_elems_step (f : Nat) (input : List Char) :
    parseF (f + 1) .elems input =
      (match parseF f .val input with
      | some (.val j, rest) =>
        (match rest with
         | [] => none
         | c :: cs =>
           if c = ',' then
             match parseF f .elems cs with
             | some (.elems es, rest2) => some (.elems (j :: es), rest2)
             | _ => none
           else if c = ']' then some (.elems [j], cs)
           else none)
      | _ => none) := rfl

theorem parseF_fields_step (f : Nat) (c : Char) (cs : List Char) :
    parseF (f + 1) .fields (c :: cs) =
      (if c = '"' then
        match parseStringRest cs with
        | none => none
        | some (k, rest) =>
          match rest with
          | [] => none
          | c2 :: cs2 =>
            if c2 = ':' then
              match parseF f .val cs2 with
              | some (.val v, rest2) =>
                (match rest2 with
                 | [] => none
                 | c3 :: cs3 =>
                   if c3 = ',' then
                     match parseF f .fields cs3 with
                     | some (.fields fs, rest3) => some (.fields ((k, v) :: fs), rest3)
                     | _ => none
                   else if c3 = '\x7d' then some (.fields [(k, v)], cs3)
                   else none)
              | _ => none
            else none
      else none) := rfl

theorem parse_render_all (fuel : Nat) :
    (∀ j rest, jsize j ≤ fuel → noDigitHead rest = true →
      parseF fuel .val (renderJson j ++ rest) = some (.val j, rest)) ∧
    (∀ j es rest, lsize (j :: es) ≤ fuel →
      parseF fuel .elems (renderElems (j :: es) ++ ']' :: rest)
        = some (.elems (j :: es), rest)) ∧
    (∀ k v fs rest, fsize ((k, v) :: fs) ≤ fuel →
      parseF fuel .fields (renderFields ((k, v) :: fs) ++ '\x7d' :: rest)
        = some (.fields ((k, v) :: fs), rest)) := by
  induction fuel with
  | zero =>
    refine ⟨fun j rest hj _ => absurd hj (by have := jsize_pos j; omega),
            fun j es rest h => absurd h (by have := jsize_pos j; simp only [lsize]; omega),
            fun k v fs rest h => absurd h (by have := jsize_pos v; simp only [fsize]; omega)⟩
  | succ fuel ih =>
    obtain ⟨ihP, ihQ, ihR⟩ := ih
    refine ⟨?_, ?_, ?_⟩
    · intro j rest hj hrest
      cases j with
      | null => rfl
      | bool b => cases b <;> rfl
      | num n =>
        obtain ⟨c, cs, hren, hn, ht, hf, hq, hlb, hob, -, -⟩ := renderInt_head n
        have hx : renderJson (.num n) ++ rest = c :: (cs ++ rest) := by
          simp [renderJson, hren]
        have hy : c :: (cs ++ rest) = renderInt n ++ rest := by simp [hren]
        rw [hx, parseF_val_step, if_neg hn, if_neg ht, if_neg hf, if_neg hq, if_neg hlb,
          if_neg hob, hy, parseNumTok_renderInt n rest hrest]
        rfl
      | str s =>
        have hx : renderJson (.str s) ++ rest = '"' :: (escapeList s ++ '"' :: rest) := by
          simp [renderJson]
        rw [hx, parseF_val_step, parseStringRest_escape s rest]
        rfl
      | arr es =>
        cases es with
        | nil => rfl
        | cons e es =>
          obtain ⟨t, hre⟩ := renderElems_cons e es
          obtain ⟨c, cs, hhead, hws, hrb⟩ := renderJson_head e
          have hx : renderJson (.arr (e :: es)) ++ rest
              = '[' :: (c :: (cs ++ (t ++ ']' :: rest))) := by
            simp [renderJson, hre, hhead]
          have hy : c :: (cs ++ (t ++ ']' :: rest))
              = renderElems (e :: es) ++ ']' :: rest := by
            simp [hre, hhead]
          have hls : lsize (e :: es) ≤ fuel := by simp [jsize] at hj; omega
          rw [hx, parseF_val_step]
          simp [hrb, hy, ihQ e es rest hls]
      | obj fs =>
        cases fs with
        | nil => rfl
        | cons kv fs =>
          obtain ⟨k, v⟩ := kv
          obtain ⟨t, hrf⟩ := renderFields_cons k v fs
          have hx : renderJson (.obj ((k, v) :: fs)) ++ rest
              = '\x7b' :: ('"' :: (t ++ '\x7d' :: rest)) := by
            simp [renderJson, hrf]
          have hy : '"' :: (t ++ '\x7d' :: rest)
              = renderFields ((k, v) :: fs) ++ '\x7d' :: rest := by
            simp [hrf]
          have hfs : fsize ((k, v) :: fs) ≤ fuel := by simp [jsize] at hj; omega
          rw [hx, parseF_val_step]
          simp [hy, ihR k v fs rest hfs]
    · intro j es rest h
      cases es with
      | nil =>
        have hj : jsize j ≤ fuel := by simp [lsize] at h; omega
        have hp := ihP j (']' :: rest) hj (by rfl)
        have hx : renderElems [j] ++ ']' :: rest = renderJson j ++ ']' :: rest := by
          simp [renderElems]
        rw [parseF_elems_step, hx]
        simp [hp]
      | cons e es =>
        have hj : jsize j ≤ fuel := by simp [lsize] at h; omega
        have hls : lsize (e :: es) ≤ fuel := by
          have := jsize_pos j; simp [lsize] at h ⊢; omega
        have hp := ihP j (',' :: (renderElems (e :: es) ++ ']' :: rest)) hj (by rfl)
        have hx : renderElems (j :: e :: es) ++ ']' :: rest
            = renderJson j ++ (',' :: (renderElems (e :: es) ++ ']' :: rest)) := by
          simp [renderElems]
        rw [parseF_elems_step, hx]
        simp [hp, ihQ e es rest hls]
    · intro k v fs rest h
      cases fs with
      | nil =>
        have hv : jsize v ≤ fuel := by simp [fsize] at h; omega
        have hx : renderFields [(k, v)] ++ '\x7d' :: rest
            = '"' :: (escapeList k ++ '"' :: (':' :: (renderJson v ++ '\x7d' :: rest))) := by
          simp [renderFields]
        have hp := ihP v ('\x7d' :: rest) hv (by rfl)
        rw [hx, parseF_fields_step]
        simp [parseStringRest_escape, hp]
      | cons kv2 fs =>
        obtain ⟨k2, v2⟩ := kv2
        have hv : jsize v ≤ fuel := by simp [fsize] at h; omega
        have hr2 : fsize ((k2, v2) :: fs) ≤ fuel := by
          have := jsize_pos v; simp [fsize] at h ⊢; omega
        have hx : renderFields ((k, v) :: (k2, v2) :: fs) ++ '\x7d' :: rest
            = '"' :: (escapeList k ++ '"' ::
                (':' :: (renderJson v ++
                  (',' :: (renderFields ((k2, v2) :: fs) ++ '\x7d' :: rest))))) := by
          simp [renderFields]
        have hp := ihP v (',' :: (renderFields ((k2, v2) :: fs) ++ '\x7d' :: rest)) hv (by rfl)
        rw [hx, parseF_fields_step]
        simp [parseStringRest_escape, hp, ihR k2 v2 fs rest hr2]

mutual

theorem jsize_le_renderJson : ∀ j : Json, jsize j ≤ (renderJson j).length
  | .null => by simp [jsize, renderJson]
  | .bool b => by cases b <;> simp [jsize, renderJson]
  | .num n => by
    obtain ⟨c, cs, hren, -, -, -, -, -, -, -, -⟩ := renderInt_head n
    simp [jsize, renderJson, hren]
  | .str s => by simp [jsize, renderJson]
  | .arr es => by
    have h := lsize_le_renderElems es
    simp only [jsize, renderJson, List.length_cons, List.length_append]
    simp
    omega
  | .obj fs => by
    have h := fsize_le_renderFields fs
    simp only [jsize, renderJson, List.length_cons, List.length_append]
    simp
    omega

theorem lsize_le_renderElems : ∀ es : List Json, lsize es ≤ (renderElems es).length + 1
  | [] => by simp [lsize]
  | [j] => by
    have h := jsize_le_renderJson j
    simp only [lsize, renderElems]
    omega
  | j :: e :: es => by
    have h1 := jsize_le_renderJson j
    have h2 := lsize_le_renderElems (e :: es)
    simp only [lsize] at h2
    simp only [lsize, renderElems, List.length_append, List.length_cons]
    omega

theorem fsize_le_renderFields :
    ∀ fs : List (List Char × Json), fsize fs ≤ (renderFields fs).length + 1
  | [] => by simp [fsize]
  | [(k, v)] => by
    have h := jsize_le_renderJson v
    simp only [fsize, renderFields, List.length_append, List.length_cons]
    omega
  | (k, v) :: (k2, v2) :: fs => by
    have h1 := jsize_le_renderJson v
    have h2 := fsize_le_renderFields ((k2, v2) :: fs)
    simp only [fsize] at h2
    simp only [fsize, renderFields, List.length_append, List.length_cons]
    omega

end

theorem dropWhile_ws_renderJson (j : Json) :
    (renderJson j).dropWhile (fun c => isWs c) = renderJson j := by
  obtain ⟨c, cs, hhead, hws, -⟩ := renderJson_head j
  rw [hhead, List.dropWhile_cons, hws]
  simp

theorem parseJsonF_render (j : Json) (fuel : Nat) (h : jsize j ≤ fuel) :
    parseJsonF fuel (renderJson j) = some (j, []) := by
  have hp := (parse_render_all fuel).1 j [] h (by rfl)
  rw [List.append_nil] at hp
  simp [parseJsonF, hp]

/-- Roundtrip at the JSON level: `JSON.parse` recovers every value that
`JSON.stringify` serialized. -/
theorem parseJsonTop_render (j : Json) :
    parseJsonTop (String.mk (renderJson j)) = some j := by
  have hfuel : jsize j ≤ (renderJson j).length + 1 :=
    le_trans (jsize_le_renderJson j) (by omega)
  have hdata : (String.mk (renderJson j)).data = renderJson j := rfl
  simp only [parseJsonTop, hdata, dropWhile_ws_renderJson,
    parseJsonF_render j _ hfuel]
  simp

theorem renderJson_injective (a b : Json) (hab : renderJson a = renderJson b) :
    a = b := by
  have ha := parseJsonTop_render a
  rw [hab, parseJsonTop_render b] at ha
  exact (Option.some.inj ha).symm

instance : DecidableEq Json := fun a b =>
  decidable_of_iff (renderJson a = renderJson b)
    ⟨fun h => renderJson_injective a b h, fun h => by rw [h]⟩

/-! ## The envelope as a JSON value and the sessionStorage handoff -/

/-- Encoding of one string field. -/
def encodeOptStr : Option String → Json
  | some s => .str s.data
  | none => .null

/-- A `SourceMatch` as the JSON object the backend serializes. -/
def encodeMatch (m : SourceMatch) : Json :=
  .obj [("type".data, .str m.type.data),
        ("name".data, .str m.name.data),
        ("acronym".data, .str m.acronym.data),
        ("specification".data, .str m.specification.data),
        ("country".data, .str m.country.data),
        ("measures".data, .arr (m.measures.map (fun s => .str s.data))),
        ("reference_number".data, .str m.reference_number.data),
        ("listed_on".data, .str m.listed_on.data)]

/-- A per-source match list field (`null` when absent). -/
def encodeOptMatches : Option (List SourceMatch) → Json
  | some ms => .arr (ms.map encodeMatch)
  | none => .null

/-- The `evidence_urls` field. -/
def encodeUrls : Option EvidenceUrls → Json
  | some u => .obj [("eu_evidence".data, encodeOptStr u.eu_evidence),
                    ("un_evidence".data, encodeOptStr u.un_evidence)]
  | none => .null

/-- A `ResultEnvelope` as the JSON value handed to `JSON.stringify`. -/
def encodeEnvelope (r : ResultEnvelope) : Json :=
  .obj [("query".data, .str r.query.data),
        ("search_type".data, .str r.search_type.data),
        ("risk_score".data, .str r.risk_score.data),
        ("ai_summary".data, encodeOptStr r.ai_summary),
        ("eu_found".data, .bool r.eu_found),
        ("eu_matches".data, encodeOptMatches r.eu_matches),
        ("un_found".data, .bool r.un_found),
        ("un_matches".data, encodeOptMatches r.un_matches),
        ("evidence_urls".data, encodeUrls r.evidence_urls),
        ("audit_folder".data, .str r.audit_folder.data),
        ("eu_unavailable".data, .bool r.eu_unavailable),
        ("un_unavailable".data, .bool r.un_unavailable)]

/-- From index.js: after a successful search the page runs
`sessionStorage.setItem("searchResults", JSON.stringify(data))` — this is the
value stored under the "searchResults" key. -/
def storedAfterSubmit (data : Json) : Option String :=
  some (String.mk (renderJson data))

/-- State of the results page after its `useEffect` ran: whether it redirected
to the home page, and the parsed value held in the `results` state. -/
structure InitOutcome where
  redirectedHome : Bool
  resultsState : Option Json
deriving DecidableEq

/-- From results.js `useEffect`: read
`sessionStorage.getItem("searchResults")`; a missing value or a `JSON.parse`
exception redirects to `/` and leaves the `results` state null; a successful
parse becomes the `results` state. -/
def resultsInit : Option String → InitOutcome
  | none => { redirectedHome := true, resultsState := none }
  | some s =>
    match parseJsonTop s with
    | some j => { redirectedHome := false, resultsState := some j }
    | none => { redirectedHome := true, resultsState := none }

/-- JavaScript truthiness of a parsed JSON value, as tested by the
`if (loading || !results)` guard of results.js. -/
def jsTruthy : Json → Bool
  | .null => false
  | .bool b => b
  | .num n => decide (n ≠ 0)
  | .str s => decide (s ≠ [])
  | .arr _ => true
  | .obj _ => true

/-- From results.js: envelope content is rendered only when the `results`
state holds a truthy value; otherwise the spinner placeholder shows. -/
def rendersEnvelopeContent (stored : Option String) : Bool :=
  match (resultsInit stored).resultsState with
  | some j => jsTruthy j
  | none => false

/-! ## Claims -/

/-- C1: the disambiguation (person-selection) flow is entered if and only if
the envelope reports neither source found (`eu_found = false` and
`un_found = false`) and the live source's match list contains strictly more
than one element of type "person_match"; every envelope not satisfying this
conjunction renders the final results view instead of a candidate list. -/
theorem claim_C1 (r : ResultEnvelope) :
    (shouldShowPersonSelection r = true ↔
      (r.eu_found = false ∧ r.un_found = false ∧ 1 < (personMatchesOf r).length)) ∧
    (shouldShowPersonSelection r = true →
      renderResultsPage r = .personSelection r.query (personMatchesOf r)) ∧
    (shouldShowPersonSelection r = false →
      renderResultsPage r = .finalResults (finalViewOf r)) := by
  refine ⟨?_, ?_, ?_⟩
  · cases hm : r.eu_matches with
    | none => simp [shouldShowPersonSelection, personMatchesOf, hm]
    | some ms => simp [shouldShowPersonSelection, personMatchesOf, hm, and_assoc]
  · intro h; simp [renderResultsPage, h]
  · intro h; simp [renderResultsPage, h]

/-- Envelope exercising C1's disambiguation branch: no source found, two
person-type candidates from the live source. -/
def envTwoCandidates : ResultEnvelope :=
  { query := "ION POPESCU", search_type := "person", risk_score := "LOW",
    ai_summary := some "analiza", eu_found := false,
    eu_matches := some [{ type := "person_match", name := "ION POPESCU" },
                        { type := "person_match", name := "ION N. POPESCU" }],
    un_found := false, un_matches := some [], evidence_urls := none,
    audit_folder := "" }

theorem claim_C1_witness :
    shouldShowPersonSelection envTwoCandidates = true ∧
    renderResultsPage envTwoCandidates
      = .personSelection envTwoCandidates.query (personMatchesOf envTwoCandidates) :=
  ⟨by decide, (claim_C1 envTwoCandidates).2.1 (by decide)⟩

/-- C2: for every envelope produced by the (spec-modelled) orchestrator, if
either source reports found the tier is at least HIGH, and the tier is
CRITICAL exactly when both report found; the scenario envelope (entity search,
list source no match, live source one regime match) has `eu_found = true`,
`un_found = false`, tier HIGH and a non-empty narrative. -/
theorem claim_C2 :
    (∀ q ty euS unS summ heur urls folder,
      ((orchestrate q ty euS unS summ heur urls folder).eu_found = true ∨
        (orchestrate q ty euS unS summ heur urls folder).un_found = true) →
        RiskTier.HIGH.rank ≤
          (assess (orchestrate q ty euS unS summ heur urls folder).eu_found
            (orchestrate q ty euS unS summ heur urls folder).un_found heur).rank ∧
        ((orchestrate q ty euS unS summ heur urls folder).risk_score = "HIGH" ∨
          (orchestrate q ty euS unS summ heur urls folder).risk_score = "CRITICAL")) ∧
    (∀ q ty euS unS summ heur urls folder,
      (orchestrate q ty euS unS summ heur urls folder).risk_score = "CRITICAL" ↔
        ((orchestrate q ty euS unS summ heur urls folder).eu_found = true ∧
          (orchestrate q ty euS unS summ heur urls folder).un_found = true)) ∧
    ((orchestrate "ACME HOLDINGS" "entity"
        (some [{ type := "regime_match", name := "", acronym := "REG",
                 measures := ["asset freeze", "travel ban"] }])
        (some []) none false none "audit_logs/2026/10/ACME").eu_found = true ∧
      (orchestrate "ACME HOLDINGS" "entity"
        (some [{ type := "regime_match", name := "", acronym := "REG",
                 measures := ["asset freeze", "travel ban"] }])
        (some []) none false none "audit_logs/2026/10/ACME").un_found = false ∧
      (orchestrate "ACME HOLDINGS" "entity"
        (some [{ type := "regime_match", name := "", acronym := "REG",
                 measures := ["asset freeze", "travel ban"] }])
        (some []) none false none "audit_logs/2026/10/ACME").risk_score = "HIGH" ∧
      ∀ n, (orchestrate "ACME HOLDINGS" "entity"
        (some [{ type := "regime_match", name := "", acronym := "REG",
                 measures := ["asset freeze", "travel ban"] }])
        (some []) none false none "audit_logs/2026/10/ACME").ai_summary = some n →
          n ≠ "") := by
  have hall : ∀ eu un h : Bool, ((eu = true ∨ un = true) →
      RiskTier.HIGH.rank ≤ (assess eu un h).rank ∧
        ((assess eu un h).label = "HIGH" ∨ (assess eu un h).label = "CRITICAL")) ∧
      ((assess eu un h).label = "CRITICAL" ↔ (eu = true ∧ un = true)) := by decide
  refine ⟨fun q ty euS unS summ heur urls folder => ?_,
          fun q ty euS unS summ heur urls folder => ?_, ?_⟩
  · exact (hall _ _ heur).1
  · exact (hall _ _ heur).2
  · refine ⟨by decide, by decide, by decide, ?_⟩
    intro n hn
    have : n = fallbackNarrative true false := by
      have := Option.some.inj hn
      exact this.symm
    subst this
    decide

theorem claim_C2_witness :
    RiskTier.HIGH.rank ≤
      (assess (orchestrate "ACME HOLDINGS" "entity"
          (some [{ type := "regime_match", name := "" }]) (some [])
          none false none "f").eu_found
        (orchestrate "ACME HOLDINGS" "entity"
          (some [{ type := "regime_match", name := "" }]) (some [])
          none false none "f").un_found false).rank :=
  (claim_C2.1 "ACME HOLDINGS" "entity" (some [{ type := "regime_match", name := "" }])
    (some []) none false none "f" (by decide)).1

/-- C3 counterexample: the part_000 search page issues the request with the
trimmed name uppercased, not the trimmed name: on input " Ab " the request
body carries "AB", which differs from the trimmed input "Ab". -/
theorem claim_C3_counterexample :
    (handleSubmitPart000 " Ab " "person").requests
        = [{ name := "AB", search_type := "person" }] ∧
    jsTrim " Ab " = "Ab" ∧ ("AB" : String) ≠ "Ab" := by decide

/-- C3 (amended): input empty after trimming fails with the validation error
and issues no request, in both search-page variants; input non-empty after
trimming issues exactly one request — carrying the trimmed name in
frontend/pages/index.js and the trimmed, uppercased name in the
src/unnamed/part_000 variant. -/
theorem claim_C3_amended (name searchType : String) :
    (jsTrim name = "" →
      handleSubmitIndex name searchType
          = { errorMessage := some "Introduceti un nume sau o entitate pentru cautare",
              requests := [] } ∧
        handleSubmitPart000 name searchType
          = { errorMessage := some "Introduceți un nume sau o companie pentru căutare",
              requests := [] }) ∧
    (jsTrim name ≠ "" →
      handleSubmitIndex name searchType
          = { errorMessage := none,
              requests := [{ name := jsTrim name, search_type := searchType }] } ∧
        handleSubmitPart000 name searchType
          = { errorMessage := none,
              requests := [{ name := jsToUpper (jsTrim name),
                             search_type := searchType }] }) := by
  constructor
  · intro h
    exact ⟨by simp [handleSubmitIndex, h], by simp [handleSubmitPart000, h]⟩
  · intro h
    exact ⟨by simp [handleSubmitIndex, h], by simp [handleSubmitPart000, h]⟩

theorem claim_C3_witness :
    (handleSubmitIndex " Ab " "person"
        = { errorMessage := none,
            requests := [{ name := jsTrim " Ab ", search_type := "person" }] } ∧
      handleSubmitPart000 " Ab " "person"
        = { errorMessage := none,
            requests := [{ name := jsToUpper (jsTrim " Ab "),
                           search_type := "person" }] }) ∧
    handleSubmitIndex "" "person"
        = { errorMessage := some "Introduceti un nume sau o entitate pentru cautare",
            requests := [] } :=
  ⟨(claim_C3_amended " Ab " "person").2 (by decide),
    ((claim_C3_amended "" "person").1 (by decide)).1⟩

/-- C4: confirming exactly one candidate issues exactly one follow-up /search
request whose body names the selected candidate and reuses the stored
envelope's search_type unchanged, and the returned envelope replaces the
stored results. -/
theorem claim_C4 (p : SourceMatch) (results data : ResultEnvelope) :
    handleConfirmSearch (some p) results (.ok data)
        = { requests := [{ name := p.name, search_type := results.search_type }],
            storedResults := some data, alerted := false } ∧
    (handleConfirmSearch (some p) results (.ok data)).requests.length = 1 ∧
    handleConfirmSearch none results (.ok data)
        = { requests := [], storedResults := none, alerted := false } :=
  ⟨rfl, rfl, rfl⟩

/-- C5: at most the first 5 elements of each source's match list are
presented, in source order (a prefix of the list), while the (spec-modelled)
found flag is computed from the total match count, independently of the
5-element cap. -/
theorem claim_C5 (r : ResultEnvelope) (all : List SourceMatch) :
    ((mkMatchSet all).found = decide (0 < all.length)) ∧
    ((mkMatchSet all).returned = all.take 5) ∧
    (∀ shown, (euCard r).shownMatches = some shown →
      shown = (r.eu_matches.getD []).take 5 ∧ shown.length ≤ 5 ∧
        shown <+: (r.eu_matches.getD [])) ∧
    (∀ shown, (unCard r).shownMatches = some shown →
      shown = (r.un_matches.getD []).take 5 ∧ shown.length ≤ 5 ∧
        shown <+: (r.un_matches.getD [])) := by
  refine ⟨rfl, rfl, ?_, ?_⟩
  · intro shown hshown
    cases hm : r.eu_matches with
    | none => simp [euCard, hm] at hshown
    | some ms =>
      simp only [euCard, hm] at hshown
      by_cases hc : r.eu_found && decide (0 < ms.length)
      · rw [if_pos hc] at hshown
        obtain rfl := Option.some.inj hshown
        refine ⟨by simp [hm], by simp,
          ⟨ms.drop 5, by simp [hm]⟩⟩
      · rw [if_neg hc] at hshown
        cases hshown
  · intro shown hshown
    cases hm : r.un_matches with
    | none => simp [unCard, hm] at hshown
    | some ms =>
      simp only [unCard, hm] at hshown
      by_cases hc : r.un_found && decide (0 < ms.length)
      · rw [if_pos hc] at hshown
        obtain rfl := Option.some.inj hshown
        refine ⟨by simp [hm], by simp,
          ⟨ms.drop 5, by simp [hm]⟩⟩
      · rw [if_neg hc] at hshown
        cases hshown

/-- Envelope exercising C5: seven EU matches, of which only five show. -/
def envSevenMatches : ResultEnvelope :=
  { query := "REG", search_type := "entity", risk_score := "HIGH",
    ai_summary := some "analiza", eu_found := true,
    eu_matches := some [{ type := "regime_match", name := "m1" },
                        { type := "regime_match", name := "m2" },
                        { type := "regime_match", name := "m3" },
                        { type := "regime_match", name := "m4" },
                        { type := "regime_match", name := "m5" },
                        { type := "regime_match", name := "m6" },
                        { type := "regime_match", name := "m7" }],
    un_found := false, un_matches := some [], evidence_urls := none,
    audit_folder := "" }

theorem claim_C5_witness :
    ((euCard envSevenMatches).shownMatches.getD []).length ≤ 5 ∧
    (euCard envSevenMatches).shownMatches.getD []
      = (envSevenMatches.eu_matches.getD []).take 5 :=
  have h := (claim_C5 envSevenMatches []).2.2.1
    ((envSevenMatches.eu_matches.getD []).take 5) (by decide)
  ⟨by rw [show (euCard envSevenMatches).shownMatches.getD []
        = (envSevenMatches.eu_matches.getD []).take 5 from by decide]
      exact h.2.1, by decide⟩

/-- Scenario envelope for C6: the live (EU) source unavailable, the list (UN)
source available with no match. -/
def envEuUnavailable : ResultEnvelope :=
  orchestrate "TEST SRL" "entity" none (some []) none false none "f"

/-- Scenario envelope for C6: both sources available, EU with a genuine
no-match result. -/
def envEuNoMatch : ResultEnvelope :=
  orchestrate "TEST SRL" "entity" (some []) (some []) none false none "f"

/-- C6 counterexample: an envelope whose EU source was unavailable (flag set,
found=false) renders exactly the same results page as one with a genuine EU
no-match, so the degradation is not visible to the caller in the
presentation. -/
theorem claim_C6_counterexample :
    envEuUnavailable.eu_unavailable = true ∧ envEuUnavailable.eu_found = false ∧
    envEuNoMatch.eu_unavailable = false ∧ envEuNoMatch.eu_found = false ∧
    renderResultsPage envEuUnavailable = renderResultsPage envEuNoMatch := by
  decide

/-- C6 (amended): the (spec-modelled) envelope does mark an unavailable or
timed-out source `found=false` with its explicit `unavailable` flag set, but
the results page presentation ignores the flag: rendering is invariant under
the `*_unavailable` fields, so an unavailable source is presented identically
to a genuine no-match. -/
theorem claim_C6_amended (q ty : String) (unSource : Option (List SourceMatch))
    (summarizer : Option String) (heur : Bool) (urls : Option EvidenceUrls)
    (folder : String) (r : ResultEnvelope) (b b2 : Bool) :
    ((orchestrate q ty none unSource summarizer heur urls folder).eu_found = false ∧
      (orchestrate q ty none unSource summarizer heur urls folder).eu_unavailable = true) ∧
    ((orchestrate q ty unSource none summarizer heur urls folder).un_found = false ∧
      (orchestrate q ty unSource none summarizer heur urls folder).un_unavailable = true) ∧
    renderResultsPage { r with eu_unavailable := b, un_unavailable := b2 }
      = renderResultsPage r :=
  ⟨⟨rfl, rfl⟩, ⟨rfl, rfl⟩, rfl⟩

/-- C7 counterexample: the part_000 search page submits the case-folded name,
and the displayed query (the backend's echo of the request name) is that
folded form — on input "Ab" the result displays "AB", so the input's original
casing is not preserved for display. -/
theorem claim_C7_counterexample :
    (handleSubmitPart000 "Ab" "person").requests
        = [{ name := "AB", search_type := "person" }] ∧
    echoedQuery { name := "AB", search_type := "person" } = "AB" ∧
    jsTrim "Ab" = "Ab" ∧ ("AB" : String) ≠ "Ab" := by decide

/-- C7 (amended): the part_000 variant sends the trimmed, case-folded
(uppercased) search key, and that folded key — not the original casing — is
what the backend echoes as the displayed query; the index.js variant sends
the trimmed name with its casing intact and performs no case-folding. -/
theorem claim_C7_amended (raw ty : String) :
    ((handleSubmitPart000 raw ty).requests.map SearchBody.name
        = if jsTrim raw = "" then [] else [jsToUpper (jsTrim raw)]) ∧
    ((handleSubmitIndex raw ty).requests.map SearchBody.name
        = if jsTrim raw = "" then [] else [jsTrim raw]) ∧
    (∀ b, b ∈ (handleSubmitPart000 raw ty).requests →
      echoedQuery b = jsToUpper (jsTrim raw)) := by
  refine ⟨?_, ?_, ?_⟩ <;> by_cases h : jsTrim raw = "" <;>
    simp [handleSubmitPart000, handleSubmitIndex, echoedQuery, h]

theorem claim_C7_witness :
    echoedQuery { name := "AB", search_type := "person" }
      = jsToUpper (jsTrim "Ab") :=
  (claim_C7_amended "Ab" "person").2.2 { name := "AB", search_type := "person" }
    (by decide)

/-- C8: the displayed risk narrative is never empty — when the summarization
output is absent, null or empty, the deterministic fallback text is shown in
its place; a non-empty summary is shown as-is. -/
theorem claim_C8 (s : Option String) :
    displayedSummary s ≠ "" ∧
    (s = none → displayedSummary s = "Nu există analiza disponibilă.") ∧
    (s = some "" → displayedSummary s = "Nu există analiza disponibilă.") ∧
    (∀ t, s = some t → t ≠ "" → displayedSummary s = t) := by
  refine ⟨?_, ?_, ?_, ?_⟩
  · cases s with
    | none => decide
    | some t =>
      by_cases h : t = ""
      · subst h; decide
      · simp [displayedSummary, h]
  · intro h; subst h; rfl
  · intro h; subst h; rfl
  · intro t h hne; subst h; simp [displayedSummary, hne]

theorem claim_C8_witness :
    displayedSummary none = "Nu există analiza disponibilă." ∧
    displayedSummary (some "") = "Nu există analiza disponibilă." ∧
    displayedSummary (some "analiza de risc") = "analiza de risc" :=
  ⟨(claim_C8 none).2.1 rfl, (claim_C8 (some "")).2.2.1 rfl,
    (claim_C8 (some "analiza de risc")).2.2.2 "analiza de risc" rfl (by decide)⟩

/-- C9: round-trip through sessionStorage — the value stored by the search
page under "searchResults" via `JSON.stringify` and recovered by the results
page via `JSON.parse` is the original envelope, which is thus the only state
carried between the two pages. -/
theorem claim_C9 (r : ResultEnvelope) :
    parseJsonTop (String.mk (renderJson (encodeEnvelope r)))
        = some (encodeEnvelope r) ∧
    resultsInit (storedAfterSubmit (encodeEnvelope r))
        = { redirectedHome := false, resultsState := some (encodeEnvelope r) } := by
  refine ⟨parseJsonTop_render (encodeEnvelope r), ?_⟩
  simp [resultsInit, storedAfterSubmit, parseJsonTop_render]

/-- C10: visiting the results page with the "searchResults" key absent, or
holding a value that is not valid JSON, redirects to the home page and
renders no envelope content; envelope content is rendered only when the
stored value parses successfully. -/
theorem claim_C10 (stored : Option String) :
    (stored = none →
      resultsInit stored = { redirectedHome := true, resultsState := none } ∧
        rendersEnvelopeContent stored = false) ∧
    (∀ s, stored = some s → parseJsonTop s = none →
      resultsInit stored = { redirectedHome := true, resultsState := none } ∧
        rendersEnvelopeContent stored = false) ∧
    (rendersEnvelopeContent stored = true →
      ∃ s j, stored = some s ∧ parseJsonTop s = some j ∧
        (resultsInit stored).resultsState = some j) := by
  refine ⟨?_, ?_, ?_⟩
  · intro h; subst h; exact ⟨rfl, rfl⟩
  · intro s hs hp
    subst hs
    simp [resultsInit, rendersEnvelopeContent, hp]
  · intro h
    cases stored with
    | none => simp [rendersEnvelopeContent, resultsInit] at h
    | some s =>
      cases hp : parseJsonTop s with
      | none => simp [rendersEnvelopeContent, resultsInit, hp] at h
      | some j => exact ⟨s, j, rfl, hp, by simp [resultsInit, hp]⟩

theorem claim_C10_witness :
    (resultsInit none = { redirectedHome := true, resultsState := none } ∧
      rendersEnvelopeContent none = false) ∧
    (resultsInit (some "date corupte")
        = { redirectedHome := true, resultsState := none } ∧
      rendersEnvelopeContent (some "date corupte") = false) :=
  ⟨(claim_C10 none).1 rfl,
    (claim_C10 (some "date corupte")).2.1 "date corupte" rfl (by decide)⟩

end CloudSanctionsAudit
